import Mathlib

/-!
Shallow embedding of the retrieval-augmented-generation service with a
semantic cache (files `src/main.rs` and `src/qdrant.rs`).

External services (the Qdrant vector store and the OpenAI embedding and
chat endpoints) are modelled as oracle inputs: each embedded function
receives the response of the external call it performs as an explicit
argument of type `Except String _`, mirroring the `Result` values the
Rust client libraries hand back. A Rust panic (an `unwrap` on `None` or
an out-of-bounds index) is modelled by the distinguished `Outcome.panicked`
value, kept apart from ordinary error returns.

Embedding vectors are `Vec<f32>` in the source; none of the verified
properties depends on floating-point arithmetic (all distance computation
happens inside the external store), so vectors are modelled abstractly as
`List Int`.
-/

set_option autoImplicit false

abbrev Embedding := List Int

/-- A stored point: identifier, vector, payload. Payloads in this program
are single-field JSON objects, modelled as association lists from field
name to string value (mirroring `PointStruct::new(uuid, embedding, payload)`
in `qdrant.rs`). -/
structure Point where
  id : Nat
  vector : Embedding
  payload : List (String × String)
deriving Repr, DecidableEq

/-- Result of running one of the fallible operations of `qdrant.rs`:
a normal success carrying a string, a normal error return (the `anyhow`
path), or a panic (`unwrap` on a missing value / index out of bounds). -/
inductive Outcome where
  | panicked
  | err (msg : String)
  | ok (val : String)
deriving Repr, DecidableEq

/-- Distance metric of a collection (`qdrant_client::prelude::Distance`). -/
inductive Distance where
  | Cosine
  | Euclid
deriving Repr, DecidableEq

/-- The part of a `CreateCollection` request this program fills in:
collection name, vector size and distance metric. -/
structure CreateCollectionReq where
  collection_name : String
  size : Nat
  distance : Distance
deriving Repr, DecidableEq

/-- One choice of a chat-completion response; `content` is optional,
mirroring `res.choices[i].message.content : Option<String>`. -/
structure Choice where
  content : Option String
deriving Repr, DecidableEq

namespace RAGSystem

/-- `static REGULAR_COLLECTION_NAME: &str = "my-collection";` -/
def REGULAR_COLLECTION_NAME : String := "my-collection"

/-- `static CACHE_COLLECTION_NAME: &str = "my-collection_cached";` -/
def CACHE_COLLECTION_NAME : String := "my-collection_cached"

/-- The request built by `RAGSystem::create_regular_collection`:
name `my-collection`, size 1536, cosine distance. -/
def create_regular_collection_req : CreateCollectionReq :=
  ⟨REGULAR_COLLECTION_NAME, 1536, Distance.Cosine⟩

/-- The request built by `RAGSystem::create_cache_collection`:
name `my-collection_cached`, size 1536, Euclidean distance. -/
def create_cache_collection_req : CreateCollectionReq :=
  ⟨CACHE_COLLECTION_NAME, 1536, Distance.Euclid⟩

/-- Embeds `RAGSystem::create_regular_collection`. The function forwards
the request to the external client and propagates its result with `?`:
any error of the client, the already-exists rejection included, is
surfaced unchanged. -/
def create_regular_collection (client : CreateCollectionReq → Except String Unit) :
    Except String Unit :=
  match client create_regular_collection_req with
  | Except.error e => Except.error e
  | Except.ok _ => Except.ok ()

/-- Embeds `RAGSystem::create_cache_collection`. Like the regular variant,
it propagates the client result with `?` and swallows nothing. -/
def create_cache_collection (client : CreateCollectionReq → Except String Unit) :
    Except String Unit :=
  match client create_cache_collection_req with
  | Except.error e => Except.error e
  | Except.ok _ => Except.ok ()

/-- Embeds `RAGSystem::embed_prompt`: on transport failure the error is
propagated; an empty `data` list is turned into an error; otherwise the
first embedding is returned. -/
def embed_prompt (resp : Except String (List Embedding)) : Except String Embedding :=
  match resp with
  | Except.error e => Except.error e
  | Except.ok data =>
    match data with
    | [] => Except.error "There were no embeddings returned by OpenAI!"
    | d :: _ => Except.ok d

/-- Embeds `RAGSystem::upset_embedding`: builds a single point whose
payload is the object with one field `document` holding `file_contents`
(the whole file, not the chunk the vector was computed from). The fresh
UUID of the source is modelled by the supplied identifier. -/
def upset_embedding (id : Nat) (embedding : Embedding) (file_contents : String) : Point :=
  ⟨id, embedding, [("document", file_contents)]⟩

/-- Embeds `RAGSystem::embed_and_upsert_csv_file`: the file is split into
lines, the header line dropped, the remaining lines sent to the batch
embedding endpoint (modelled by the oracle `embedBatch`); an empty
embedding list is rejected; otherwise one point per embedding is upserted,
each built by `upset_embedding` with the WHOLE file contents as payload.
The returned list holds the points upserted into the knowledge
collection. -/
def embed_and_upsert_csv_file (file_contents : String)
    (embedBatch : List String → Except String (List Embedding)) :
    Except String (List Point) :=
  let chunked_file_contents := (file_contents.splitOn "\n").drop 1
  match embedBatch chunked_file_contents with
  | Except.error e => Except.error e
  | Except.ok embeddings_vec =>
    if embeddings_vec.isEmpty then
      Except.error "There were no embeddings returned by OpenAI"
    else
      Except.ok (embeddings_vec.enum.map
        (fun p => upset_embedding p.1 p.2 file_contents))

/-- Embeds `RAGSystem::add_to_cache`: upserts exactly one point into the
cache collection, with a fresh identifier and the payload object with one
field `answer`. Modelled as a function on the cache-collection contents. -/
def add_to_cache (cache : List Point) (freshId : Nat) (embedding : Embedding)
    (answer : String) : List Point :=
  cache ++ [⟨freshId, embedding, [("answer", answer)]⟩]

/-- Embeds `RAGSystem::search`: takes the response of the external top-1
search over the knowledge collection. A transport error is propagated; an
empty result list becomes the error `There\x27s nothing matching.`; a
non-empty result has its `document` payload field extracted with
`unwrap`, which panics when the field is absent. -/
def search (resp : Except String (List Point)) : Outcome :=
  match resp with
  | Except.error e => Outcome.err e
  | Except.ok results =>
    match results with
    | [] => Outcome.err "There\x27s nothing matching."
    | r :: _ =>
      match r.payload.lookup "document" with
      | none => Outcome.panicked
      | some v => Outcome.ok v

/-- Embeds `RAGSystem::search_cache`: identical to `search` but over the
cache collection and extracting the `answer` payload field, again with a
panicking `unwrap` when the field is absent. -/
def search_cache (resp : Except String (List Point)) : Outcome :=
  match resp with
  | Except.error e => Outcome.err e
  | Except.ok results =>
    match results with
    | [] => Outcome.err "There\x27s nothing matching."
    | r :: _ =>
      match r.payload.lookup "answer" with
      | none => Outcome.panicked
      | some v => Outcome.ok v

/-- Embeds `RAGSystem::prompt` (the generation call): a transport error is
propagated; otherwise `res.choices[0]` is read — an out-of-bounds index,
hence a panic, when `choices` is empty — and its `content` is either
returned or, when `None`, turned into the error
`There was no result from OpenAI`. -/
def prompt (resp : Except String (List Choice)) : Outcome :=
  match resp with
  | Except.error e => Outcome.err e
  | Except.ok choices =>
    match choices with
    | [] => Outcome.panicked
    | c :: _ =>
      match c.content with
      | none => Outcome.err "There was no result from OpenAI"
      | some s => Outcome.ok s

end RAGSystem

/-- The oracle inputs of one request through the `prompt` handler of
`main.rs`: the responses of the five external calls the handler can make,
in pipeline order, plus the fresh identifier `add_to_cache` would mint.
A field is simply unused when the pipeline never reaches its stage. -/
structure Oracles where
  embedResp : Except String (List Embedding)
  cacheSearchResp : Except String (List Point)
  knowSearchResp : Except String (List Point)
  genResp : Except String (List Choice)
  cacheWriteResp : Except String Unit
  freshId : Nat
deriving Repr

/-- What one run of the `prompt` handler produced: the HTTP-level outcome,
which later stages were invoked, and the cache-collection contents after
the request. -/
structure PipelineResult where
  outcome : Outcome
  retrieveInvoked : Bool
  genInvoked : Bool
  cacheWriteInvoked : Bool
  cache : List Point
deriving Repr

/-- Embeds the `prompt` handler of `main.rs`, stage by stage:
embed the prompt (failure aborts); probe the cache with
`if let Ok(answer) = state.search_cache(..)` (an `Ok` returns the cached
answer, ANY `Err` falls through to retrieval); search the knowledge
collection (failure aborts); generate (failure aborts); `add_to_cache`
(failure aborts, success returns the generated answer). A panic inside a
stage panics the whole request. -/
def prompt (cache : List Point) (o : Oracles) : PipelineResult :=
  match RAGSystem.embed_prompt o.embedResp with
  | Except.error e =>
    ⟨Outcome.err ("An error occurred while embedding the prompt: " ++ e),
      false, false, false, cache⟩
  | Except.ok embedding =>
    match RAGSystem.search_cache o.cacheSearchResp with
    | Outcome.panicked => ⟨Outcome.panicked, false, false, false, cache⟩
    | Outcome.ok answer => ⟨Outcome.ok answer, false, false, false, cache⟩
    | Outcome.err _ =>
      match RAGSystem.search o.knowSearchResp with
      | Outcome.panicked => ⟨Outcome.panicked, true, false, false, cache⟩
      | Outcome.err e =>
        ⟨Outcome.err ("An error occurred while prompting: " ++ e),
          true, false, false, cache⟩
      | Outcome.ok _search_result =>
        match RAGSystem.prompt o.genResp with
        | Outcome.panicked => ⟨Outcome.panicked, true, true, false, cache⟩
        | Outcome.err e =>
          ⟨Outcome.err ("Something went wrong while prompting: " ++ e),
            true, true, false, cache⟩
        | Outcome.ok llm_response =>
          match o.cacheWriteResp with
          | Except.error e =>
            ⟨Outcome.err ("Something went wrong while adding item to the cache: " ++ e),
              true, true, true, cache⟩
          | Except.ok _ =>
            ⟨Outcome.ok llm_response, true, true, true,
              RAGSystem.add_to_cache cache o.freshId embedding llm_response⟩

/-- `let setup_required = true;` in `main`. -/
def setup_required : Bool := true

/-- Embeds the setup block of `main` (lines 81-88): when `setup_required`
holds, `create_cache_collection` is called TWICE (the regular collection
is never created), then the CSV ingestion runs; each step aborts startup
on error via `?`. The client oracle is indexed by call number so the two
create calls can behave differently (as a real store does when the first
call has already created the collection). Returns the startup outcome
together with the list of collection-create requests issued. -/
def startupSetup (client : Nat → CreateCollectionReq → Except String Unit)
    (ingest : Except String Unit) :
    Except String Unit × List CreateCollectionReq :=
  if setup_required then
    match RAGSystem.create_cache_collection (client 0) with
    | Except.error e => (Except.error e, [RAGSystem.create_cache_collection_req])
    | Except.ok _ =>
      match RAGSystem.create_cache_collection (client 1) with
      | Except.error e =>
        (Except.error e,
          [RAGSystem.create_cache_collection_req, RAGSystem.create_cache_collection_req])
      | Except.ok _ =>
        (ingest,
          [RAGSystem.create_cache_collection_req, RAGSystem.create_cache_collection_req])
  else (Except.ok (), [])

/-- A store client that accepts every request: both create calls succeed. -/
def allOkClient : Nat → CreateCollectionReq → Except String Unit :=
  fun _ _ => Except.ok ()

/-- A store client modelling a store that rejects re-creation: the first
create call succeeds, every later call for the (identical) name is
rejected with an already-exists error. -/
def alreadyExistsClient : Nat → CreateCollectionReq → Except String Unit :=
  fun n _ => if n = 0 then Except.ok () else Except.error "already exists"

/-- Concrete oracle set for exercising the fail-open path: embedding
succeeds, the cache search fails with a transport error, the knowledge
search and the generation succeed. -/
def failOpenOracles : Oracles :=
  ⟨Except.ok [[0]], Except.error "transport down",
    Except.ok [⟨7, [0], [("document", "ctx")]⟩],
    Except.ok [⟨some "ans"⟩], Except.ok (), 42⟩

/-- C1: the claim says startup declares BOTH collections before the router
is built. The code calls `create_cache_collection` twice and never calls
`create_regular_collection`: with a client that accepts every request, the
requests issued during setup are two identical cache-collection creates,
and the regular (knowledge) collection request is not among them. -/
theorem c1_startup_creates_only_the_cache_collection :
    (startupSetup allOkClient (Except.ok ())).2 =
      [RAGSystem.create_cache_collection_req, RAGSystem.create_cache_collection_req]
    ∧ RAGSystem.create_regular_collection_req ∉ (startupSetup allOkClient (Except.ok ())).2 := by
  constructor
  · rfl
  · decide

/-- C2: the claim says the second create of an existing collection is
swallowed. The code propagates every client error with `?`: against a
store that rejects re-creation of an existing name, the startup sequence
(which creates the cache collection twice in a row) aborts with the
already-exists error instead of swallowing it. -/
theorem c2_second_create_call_surfaces_already_exists :
    (startupSetup alreadyExistsClient (Except.ok ())).1 = Except.error "already exists" := by
  rfl

/-- C3: the cache is fail-open. Whenever embedding succeeds and the cache
search comes back with ANY error outcome (transport failure or the
no-match error alike), the handler proceeds to knowledge retrieval, and
the whole request behaves exactly as it does on a plain cache miss (an
empty cache search result): the error message never influences the
request, which is never aborted by the cache-lookup stage. -/
theorem c3_cache_errors_fail_open (cache : List Point) (o : Oracles)
    (emb : Embedding) (msg : String)
    (hemb : RAGSystem.embed_prompt o.embedResp = Except.ok emb)
    (hcache : RAGSystem.search_cache o.cacheSearchResp = Outcome.err msg) :
    (prompt cache o).retrieveInvoked = true
    ∧ prompt cache o = prompt cache { o with cacheSearchResp := Except.ok [] } := by
  obtain ⟨er, cr, kr, gr, wr, fid⟩ := o
  simp only at hemb hcache
  constructor
  · simp only [prompt, hemb, hcache]
    cases hk : RAGSystem.search kr with
    | panicked => rfl
    | err e => rfl
    | ok v =>
      cases hg : RAGSystem.prompt gr with
      | panicked => rfl
      | err e => rfl
      | ok a => cases wr <;> rfl
  · simp only [prompt, hemb, hcache]
    simp [RAGSystem.search_cache]

/-- Witness for C3 at a concrete request: cache search hit a transport
failure, yet retrieval ran and the request equals the plain-miss run. -/
theorem c3_cache_errors_fail_open_witness :
    (prompt [] failOpenOracles).retrieveInvoked = true
    ∧ prompt [] failOpenOracles
        = prompt [] { failOpenOracles with cacheSearchResp := Except.ok [] } :=
  c3_cache_errors_fail_open [] failOpenOracles [0] "transport down" rfl rfl

/-- C4 counterexample: the claim says an empty cache-search result yields a
non-error no-match value. The code returns an error value (constructor
`Outcome.err`, the `anyhow` bail of `search_cache`), not a success. -/
theorem c4_empty_cache_search_is_an_error :
    RAGSystem.search_cache (Except.ok []) = Outcome.err "There\x27s nothing matching." := by
  rfl

/-- C4 amended: the cache lookup returns the `answer` payload field of the
top-1 result when the search yields a result carrying that field, and
returns an ERROR value (which the caller then treats as a miss) when the
search yields no result. -/
theorem c4_lookup_amended (p : Point) (rest : List Point) (ans : String)
    (h : p.payload.lookup "answer" = some ans) :
    RAGSystem.search_cache (Except.ok (p :: rest)) = Outcome.ok ans
    ∧ RAGSystem.search_cache (Except.ok []) = Outcome.err "There\x27s nothing matching." := by
  refine ⟨?_, rfl⟩
  simp [RAGSystem.search_cache, h]

/-- Witness for the amended C4 at a concrete cached point. -/
theorem c4_lookup_amended_witness :
    RAGSystem.search_cache (Except.ok [⟨3, [1], [("answer", "Paris.")]⟩]) = Outcome.ok "Paris."
    ∧ RAGSystem.search_cache (Except.ok []) = Outcome.err "There\x27s nothing matching." :=
  c4_lookup_amended ⟨3, [1], [("answer", "Paris.")]⟩ [] "Paris." rfl

/-- C5 counterexample: the claim says the empty-choices case is an error
return, never a crash. The code indexes `res.choices[0]` without a bounds
check, so an upstream response with no choices panics. -/
theorem c5_empty_choices_panics :
    RAGSystem.prompt (Except.ok []) = Outcome.panicked := by
  rfl

/-- C5 amended: the generation operation returns the first completion when
its content is present, fails with an error when the upstream call fails
or when the first choice carries no content, and PANICS (out-of-bounds
index) when the upstream returns an empty choices list. -/
theorem c5_generation_amended (cs : List Choice) (c : Choice)
    (hhead : cs.head? = some c) :
    (∀ s, c.content = some s → RAGSystem.prompt (Except.ok cs) = Outcome.ok s)
    ∧ (c.content = none →
        RAGSystem.prompt (Except.ok cs) = Outcome.err "There was no result from OpenAI")
    ∧ (∀ e, RAGSystem.prompt (Except.error e) = Outcome.err e)
    ∧ RAGSystem.prompt (Except.ok ([] : List Choice)) = Outcome.panicked := by
  cases cs with
  | nil => simp at hhead
  | cons c0 rest =>
    simp only [List.head?, Option.some.injEq] at hhead
    subst hhead
    refine ⟨?_, ?_, ?_, rfl⟩
    · intro s hs
      simp [RAGSystem.prompt, hs]
    · intro hn
      simp [RAGSystem.prompt, hn]
    · intro e
      rfl

/-- Witness for the amended C5: a single choice with content yields that
content. -/
theorem c5_generation_amended_witness :
    RAGSystem.prompt (Except.ok [⟨some "Paris."⟩]) = Outcome.ok "Paris." :=
  (c5_generation_amended [⟨some "Paris."⟩] ⟨some "Paris."⟩ rfl).1 "Paris." rfl

/-- Concrete oracle set for the full cache-miss path: embedding succeeds,
the cache search returns no points, the knowledge search returns a
document, generation succeeds, and the cache write succeeds. -/
def missPathOracles : Oracles :=
  ⟨Except.ok [[5]], Except.ok [],
    Except.ok [⟨7, [2], [("document", "Paris is the capital of France.")]⟩],
    Except.ok [⟨some "Paris."⟩], Except.ok (), 9⟩

/-- Concrete oracle set where everything succeeds except the cache write. -/
def failedWriteOracles : Oracles :=
  ⟨Except.ok [[5]], Except.ok [],
    Except.ok [⟨7, [2], [("document", "Paris is the capital of France.")]⟩],
    Except.ok [⟨some "Paris."⟩], Except.error "write refused", 9⟩

/-- Concrete oracle set where the knowledge search returns no points. -/
def emptyKnowledgeOracles : Oracles :=
  ⟨Except.ok [[5]], Except.ok [], Except.ok [],
    Except.ok [⟨some "never used"⟩], Except.ok (), 9⟩

/-- C6: on the cache-miss path with a successful generation and a
successful cache write, the cache collection grows by EXACTLY the one
point `add_to_cache` built — fresh id, the request embedding, payload
`answer = generated text` — and a later cache lookup whose top-1 result
is that point returns exactly the generated answer; the request itself
answers with the generated text. -/
theorem c6_miss_then_generation_adds_one_point (cache : List Point) (o : Oracles)
    (emb : Embedding) (msg ctx ans : String)
    (hemb : RAGSystem.embed_prompt o.embedResp = Except.ok emb)
    (hmiss : RAGSystem.search_cache o.cacheSearchResp = Outcome.err msg)
    (hknow : RAGSystem.search o.knowSearchResp = Outcome.ok ctx)
    (hgen : RAGSystem.prompt o.genResp = Outcome.ok ans)
    (hwrite : o.cacheWriteResp = Except.ok ()) :
    (prompt cache o).cache = cache ++ [⟨o.freshId, emb, [("answer", ans)]⟩]
    ∧ (prompt cache o).cache.length = cache.length + 1
    ∧ RAGSystem.search_cache (Except.ok [⟨o.freshId, emb, [("answer", ans)]⟩])
        = Outcome.ok ans
    ∧ (prompt cache o).outcome = Outcome.ok ans := by
  obtain ⟨er, cr, kr, gr, wr, fid⟩ := o
  simp only at hemb hmiss hknow hgen hwrite
  subst hwrite
  simp only [prompt, hemb, hmiss, hknow, hgen]
  simp [RAGSystem.add_to_cache, RAGSystem.search_cache]

/-- Witness for C6 at the concrete miss-path request: one point is added
and its payload round-trips to the generated answer. -/
theorem c6_miss_then_generation_adds_one_point_witness :
    (prompt [] missPathOracles).cache = [] ++ [⟨9, [5], [("answer", "Paris.")]⟩]
    ∧ (prompt [] missPathOracles).cache.length = List.length ([] : List Point) + 1
    ∧ RAGSystem.search_cache (Except.ok [⟨9, [5], [("answer", "Paris.")]⟩])
        = Outcome.ok "Paris."
    ∧ (prompt [] missPathOracles).outcome = Outcome.ok "Paris." :=
  c6_miss_then_generation_adds_one_point [] missPathOracles [5]
    "There\x27s nothing matching." "Paris is the capital of France." "Paris."
    rfl rfl rfl rfl rfl

/-- C7: on the cache-miss path, when everything up to and including
generation succeeded but the cache write fails, the handler returns the
cache-write error — not the already-computed answer — and the cache is
left unchanged. -/
theorem c7_cache_write_failure_aborts_request (cache : List Point) (o : Oracles)
    (emb : Embedding) (msg ctx ans e : String)
    (hemb : RAGSystem.embed_prompt o.embedResp = Except.ok emb)
    (hmiss : RAGSystem.search_cache o.cacheSearchResp = Outcome.err msg)
    (hknow : RAGSystem.search o.knowSearchResp = Outcome.ok ctx)
    (hgen : RAGSystem.prompt o.genResp = Outcome.ok ans)
    (hwrite : o.cacheWriteResp = Except.error e) :
    (prompt cache o).outcome
      = Outcome.err ("Something went wrong while adding item to the cache: " ++ e)
    ∧ (prompt cache o).outcome ≠ Outcome.ok ans
    ∧ (prompt cache o).cache = cache := by
  obtain ⟨er, cr, kr, gr, wr, fid⟩ := o
  simp only at hemb hmiss hknow hgen hwrite
  subst hwrite
  simp only [prompt, hemb, hmiss, hknow, hgen]
  simp

/-- Witness for C7: a refused cache write turns a fully computed answer
into an error response. -/
theorem c7_cache_write_failure_aborts_request_witness :
    (prompt [] failedWriteOracles).outcome
      = Outcome.err ("Something went wrong while adding item to the cache: " ++ "write refused")
    ∧ (prompt [] failedWriteOracles).outcome ≠ Outcome.ok "Paris."
    ∧ (prompt [] failedWriteOracles).cache = [] :=
  c7_cache_write_failure_aborts_request [] failedWriteOracles [5]
    "There\x27s nothing matching." "Paris is the capital of France." "Paris."
    "write refused" rfl rfl rfl rfl rfl

/-- C8: when the pipeline reaches the knowledge search (embedding
succeeded, cache search was an error, i.e. a miss) and that search
returns no results, the request fails with the no-match error and the
generation client is never invoked. -/
theorem c8_no_match_skips_generation (cache : List Point) (o : Oracles)
    (emb : Embedding) (msg : String)
    (hemb : RAGSystem.embed_prompt o.embedResp = Except.ok emb)
    (hmiss : RAGSystem.search_cache o.cacheSearchResp = Outcome.err msg)
    (hknow : o.knowSearchResp = Except.ok []) :
    (prompt cache o).outcome
      = Outcome.err ("An error occurred while prompting: " ++ "There\x27s nothing matching.")
    ∧ (prompt cache o).genInvoked = false := by
  obtain ⟨er, cr, kr, gr, wr, fid⟩ := o
  simp only at hemb hmiss hknow
  subst hknow
  simp only [prompt, hemb, hmiss]
  simp [RAGSystem.search]

/-- Witness for C8: an empty knowledge collection yields the no-match
error and generation never runs. -/
theorem c8_no_match_skips_generation_witness :
    (prompt [] emptyKnowledgeOracles).outcome
      = Outcome.err ("An error occurred while prompting: " ++ "There\x27s nothing matching.")
    ∧ (prompt [] emptyKnowledgeOracles).genInvoked = false :=
  c8_no_match_skips_generation [] emptyKnowledgeOracles [5]
    "There\x27s nothing matching." rfl rfl rfl

/-- C9: whatever CSV file is ingested and whatever the batch embedding
returns, every point the ingestion upserts carries the ENTIRE raw file
contents (header line included) as its `document` payload — the loop
passes `file_contents.clone()` to `upset_embedding`, not the chunk — so
all points of one run share an identical payload. -/
theorem c9_payload_is_whole_file (file_contents : String)
    (embedBatch : List String → Except String (List Embedding)) (points : List Point)
    (h : RAGSystem.embed_and_upsert_csv_file file_contents embedBatch = Except.ok points) :
    (∀ p ∈ points, p.payload = [("document", file_contents)])
    ∧ ∀ p ∈ points, ∀ q ∈ points, p.payload = q.payload := by
  simp only [RAGSystem.embed_and_upsert_csv_file] at h
  cases hb : embedBatch ((file_contents.splitOn "\n").drop 1) with
  | error e => rw [hb] at h; simp at h
  | ok embeddings_vec =>
    rw [hb] at h
    dsimp only at h
    by_cases he : embeddings_vec.isEmpty
    · simp [he] at h
    · rw [if_neg he] at h
      injection h with h
      subst h
      have hall : ∀ p ∈ embeddings_vec.enum.map
          (fun q => RAGSystem.upset_embedding q.1 q.2 file_contents),
          p.payload = [("document", file_contents)] := by
        intro p hp
        rcases List.mem_map.mp hp with ⟨⟨i, e⟩, _, rfl⟩
        rfl
      exact ⟨hall, fun p hp q hq => (hall p hp).trans (hall q hq).symm⟩

/-- Witness for C9 at a concrete two-line CSV file: the ingested point
carries the whole file (header included) as payload, not its own line. -/
theorem c9_payload_is_whole_file_witness :
    (⟨0, [4], [("document", "city,country\nParis,France")]⟩ : Point).payload
      = [("document", "city,country\nParis,France")] :=
  (c9_payload_is_whole_file "city,country\nParis,France"
      (fun _ => Except.ok [[4]])
      [⟨0, [4], [("document", "city,country\nParis,France")]⟩] rfl).1
    ⟨0, [4], [("document", "city,country\nParis,France")]⟩ (by simp)

/-- C10: whenever the knowledge search returns a top-1 point whose payload
has no `document` field, or the cache search returns a top-1 point whose
payload has no `answer` field, the operation panics (an `unwrap` of a
missing map entry) instead of returning an error value. -/
theorem c10_missing_payload_key_panics (p q : Point) (restA restB : List Point)
    (hdoc : p.payload.lookup "document" = none)
    (hans : q.payload.lookup "answer" = none) :
    RAGSystem.search (Except.ok (p :: restA)) = Outcome.panicked
    ∧ RAGSystem.search_cache (Except.ok (q :: restB)) = Outcome.panicked := by
  constructor
  · simp [RAGSystem.search, hdoc]
  · simp [RAGSystem.search_cache, hans]

/-- Witness for C10: a point with an empty payload panics both searches. -/
theorem c10_missing_payload_key_panics_witness :
    RAGSystem.search (Except.ok [(⟨0, [], []⟩ : Point)]) = Outcome.panicked
    ∧ RAGSystem.search_cache (Except.ok [(⟨0, [], []⟩ : Point)]) = Outcome.panicked :=
  c10_missing_payload_key_panics ⟨0, [], []⟩ ⟨0, [], []⟩ [] [] rfl rfl
